import Mathlib

/-!
Shallow embedding of the `AHttpService` HTTP client layer
(`HttpService.h` / `HttpService.cpp`) of the UE4_Tutorial_Http repository.

Modelling conventions:
* `FString` is `String`; the C++ `int` field of `FResponse_Login` is `Int`.
* JSON text is modelled as a `Json` value tree: the string serialisation /
  parsing layer belongs to the external `Json` module, which both directions
  of the repository's codec pass through, so the composed behaviour is a map
  between structs and JSON values.
* The engine side effects (UE_LOG, the body-decode call, the credential
  write) are recorded in an `Effect` trace so that "no decode is attempted"
  and "the status code is logged" are statable.
* The mutable actor state (`AuthorizationHash`) is threaded explicitly as a
  `ServiceState` value; functions that mutate it return the new state.
-/

/-- JSON value tree, standing for the JSON text handled by the external
`Json` / `JsonUtilities` modules. -/
inductive Json where
  | null : Json
  | boolean : Bool → Json
  | num : Int → Json
  | str : String → Json
  | arr : List Json → Json
  | obj : List (String × Json) → Json

/-- Lookup of a key in a JSON object's field list (first match). -/
def Json.lookupList : List (String × Json) → String → Option Json
  | [], _ => none
  | (k, v) :: rest, key => if k == key then some v else Json.lookupList rest key

/-- Field lookup on a JSON value: a field of an object, nothing otherwise. -/
def Json.lookupField : Json → String → Option Json
  | Json.obj fields, key => Json.lookupList fields key
  | _, _ => none

/-- `FRequest_Login` from HttpService.h: the login credentials struct. -/
structure FRequest_Login where
  email : String
  password : String
deriving DecidableEq

/-- `FResponse_Login` from HttpService.h: the login response struct.
Reflection-created instances default to zero / empty values. -/
structure FResponse_Login where
  id : Int
  name : String
  hash : String
deriving DecidableEq

/-- Default-constructed `FResponse_Login` (all fields at their type's
default value, as produced by the reflection system). -/
def FResponse_Login.default : FResponse_Login :=
  { id := 0, name := "", hash := "" }

/-- Modelled from the spec: the external transport's response object
(`FHttpResponse` behind `FHttpResponsePtr`), carrying a status code and a
body; the body is the JSON value its text parses to. -/
structure FHttpResponse where
  responseCode : Int
  content : Json

/-- Mutable state of the `AHttpService` actor: the single process-wide
authorization credential `AuthorizationHash`. -/
structure ServiceState where
  authorizationHash : String
deriving DecidableEq

/-- Initial actor state: `AuthorizationHash` starts as the placeholder
`TEXT("asdfasdf")` (HttpService.h line 39). -/
def initialState : ServiceState := { authorizationHash := "asdfasdf" }

/-- `ApiBaseUrl` constant from HttpService.h. -/
def ApiBaseUrl : String := "http://murk.dev/api/"

/-- `AuthorizationHeader` constant from HttpService.h (never mutated). -/
def AuthorizationHeader : String := "Authorization"

/-- Outbound request object as configured through the transport's mutators
(`SetURL`, `SetHeader`, `SetVerb`, `SetContentAsString`). -/
structure HttpRequest where
  url : String
  headers : List (String × String)
  verb : String
  content : Option Json

/-- A freshly created request (`Http->CreateRequest()`), nothing set yet. -/
def createRequest : HttpRequest :=
  { url := "", headers := [], verb := "", content := none }

/-- Modelled from the spec: the transport's `SetHeader(name, value)`
mutator — replaces an existing header of that name, appends otherwise. -/
def setHeader (hs : List (String × String)) (k v : String) : List (String × String) :=
  if hs.any (fun p => p.1 == k) then
    hs.map (fun p => if p.1 == k then (k, v) else p)
  else hs ++ [(k, v)]

/-- `AHttpService::SetRequestHeaders`: sets the four headers, the last one
being `AuthorizationHeader` with the current `AuthorizationHash`. -/
def SetRequestHeaders (s : ServiceState) (Request : HttpRequest) : HttpRequest :=
  let h1 := setHeader Request.headers "User-Agent" "X-UnrealEngine-Agent"
  let h2 := setHeader h1 "Content-Type" "application/json"
  let h3 := setHeader h2 "Accepts" "application/json"
  let h4 := setHeader h3 AuthorizationHeader s.authorizationHash
  { Request with headers := h4 }

/-- `AHttpService::RequestWithRoute`: a fresh request whose URL is
`ApiBaseUrl + Subroute`, with the headers set. -/
def RequestWithRoute (s : ServiceState) (Subroute : String) : HttpRequest :=
  SetRequestHeaders s { createRequest with url := ApiBaseUrl ++ Subroute }

/-- `AHttpService::GetRequest`: request with route, verb `GET`. -/
def GetRequest (s : ServiceState) (Subroute : String) : HttpRequest :=
  { RequestWithRoute s Subroute with verb := "GET" }

/-- `AHttpService::PostRequest`: request with route, verb `POST`, and the
JSON content string as body. -/
def PostRequest (s : ServiceState) (Subroute : String) (ContentJsonString : Json) :
    HttpRequest :=
  { RequestWithRoute s Subroute with verb := "POST", content := some ContentJsonString }

/-- Observable side effects of the completion path, in program order. -/
inductive Effect where
  | logErrorCode : Int → Effect
  | decodeBody : Effect
  | setAuthorizationHash : String → Effect
  | logId : Int → Effect
  | logName : String → Effect
deriving DecidableEq

/-- Modelled from the spec: `EHttpResponseCodes::IsOk` of the external Http
module — the spec's "OK" classification, status code in the 200–299 range. -/
def EHttpResponseCodes.IsOk (StatusCode : Int) : Bool :=
  decide (200 ≤ StatusCode) && decide (StatusCode ≤ 299)

/-- `AHttpService::ResponseIsValid`: false on transport failure or an
invalid (absent) response pointer; otherwise true exactly for an OK status
code, logging the code when it is not OK. The returned list is the log
trace of the call. -/
def ResponseIsValid (Response : Option FHttpResponse) (bWasSuccessful : Bool) :
    Bool × List Effect :=
  if !bWasSuccessful || Response.isNone then (false, [])
  else
    match Response with
    | none => (false, [])
    | some r =>
      if EHttpResponseCodes.IsOk r.responseCode then (true, [])
      else (false, [Effect.logErrorCode r.responseCode])

/-- `AHttpService::SetAuthorizationHash`. -/
def SetAuthorizationHash (s : ServiceState) (Hash : String) : ServiceState :=
  { s with authorizationHash := Hash }

/-- Modelled from the spec: `FJsonObjectConverter::UStructToJsonObjectString`
monomorphised at `FRequest_Login` — every field is emitted. -/
def uStructToJsonObjectString_RequestLogin (FilledStruct : FRequest_Login) : Json :=
  Json.obj [("email", Json.str FilledStruct.email),
            ("password", Json.str FilledStruct.password)]

/-- Modelled from the spec: `FJsonObjectConverter::UStructToJsonObjectString`
monomorphised at `FResponse_Login` — every field is emitted. -/
def uStructToJsonObjectString_ResponseLogin (FilledStruct : FResponse_Login) : Json :=
  Json.obj [("id", Json.num FilledStruct.id),
            ("name", Json.str FilledStruct.name),
            ("hash", Json.str FilledStruct.hash)]

/-- String field extraction used by the decoder: a present field of string
type gives its value, anything else (missing or mismatched) gives the
default empty string, silently. -/
def decodeStrField (j : Json) (key : String) : String :=
  match Json.lookupField j key with
  | some (Json.str s) => s
  | _ => ""

/-- Integer field extraction used by the decoder: a present field of number
type gives its value, anything else gives the default 0, silently. -/
def decodeIntField (j : Json) (key : String) : Int :=
  match Json.lookupField j key with
  | some (Json.num n) => n
  | _ => 0

/-- Modelled from the spec: `FJsonObjectConverter::JsonObjectStringToUStruct`
monomorphised at `FRequest_Login` — best-effort, missing or mismatched
fields stay at their default. -/
def jsonObjectStringToUStruct_RequestLogin (j : Json) : FRequest_Login :=
  { email := decodeStrField j "email",
    password := decodeStrField j "password" }

/-- Modelled from the spec: `FJsonObjectConverter::JsonObjectStringToUStruct`
monomorphised at `FResponse_Login` — best-effort, missing or mismatched
fields stay at their default. -/
def jsonObjectStringToUStruct_ResponseLogin (j : Json) : FResponse_Login :=
  { id := decodeIntField j "id",
    name := decodeStrField j "name",
    hash := decodeStrField j "hash" }

/-- `AHttpService::GetJsonStringFromStruct` at `FRequest_Login`: wraps the
converter. -/
def GetJsonStringFromStruct_RequestLogin (FilledStruct : FRequest_Login) : Json :=
  uStructToJsonObjectString_RequestLogin FilledStruct

/-- `Response->GetContentAsString()`: the body of a present response. The
code only reaches this call on a validated (hence present) response; the
`none` branch is unreachable there and yields the empty body. -/
def GetContentAsString : Option FHttpResponse → Json
  | some r => r.content
  | none => Json.null

/-- `AHttpService::GetStructFromJsonString` at `FResponse_Login`: decodes
the response body into the struct. -/
def GetStructFromJsonString_ResponseLogin (Response : Option FHttpResponse) :
    FResponse_Login :=
  jsonObjectStringToUStruct_ResponseLogin (GetContentAsString Response)

/-- `AHttpService::Login`: serialises the credentials and builds the POST
request on route `"user/login"`. The dispatch itself (`Send`) and the
binding of `LoginResponse` as completion handler belong to the external
transport. -/
def Login (s : ServiceState) (LoginCredentials : FRequest_Login) : HttpRequest :=
  PostRequest s "user/login" (GetJsonStringFromStruct_RequestLogin LoginCredentials)

/-- `AHttpService::LoginResponse`: on an invalid outcome, returns at once
(state unchanged, only the validator's log emitted); on a valid outcome,
decodes the body, stores its `hash` as the credential, and logs id and
name. -/
def LoginResponse (s : ServiceState) (Response : Option FHttpResponse)
    (bWasSuccessful : Bool) : ServiceState × List Effect :=
  if (ResponseIsValid Response bWasSuccessful).fst then
    let LoginResp := GetStructFromJsonString_ResponseLogin Response
    (SetAuthorizationHash s LoginResp.hash,
      (ResponseIsValid Response bWasSuccessful).snd
        ++ [Effect.decodeBody, Effect.setAuthorizationHash LoginResp.hash,
            Effect.logId LoginResp.id, Effect.logName LoginResp.name])
  else (s, (ResponseIsValid Response bWasSuccessful).snd)

/-- Folding a sequence of login completions over the actor state, in the
order the transport delivers them. -/
def runCompletions : ServiceState → List (Option FHttpResponse × Bool) → ServiceState
  | s, [] => s
  | s, c :: rest => runCompletions (LoginResponse s c.1 c.2).fst rest

/-! Helper lemmas shared by the claim theorems. -/

theorem loginResponse_invalid_fst (s : ServiceState) (Response : Option FHttpResponse)
    (b : Bool) (h : (ResponseIsValid Response b).fst = false) :
    (LoginResponse s Response b).fst = s := by
  unfold LoginResponse
  simp [h]

theorem loginResponse_invalid_snd (s : ServiceState) (Response : Option FHttpResponse)
    (b : Bool) (h : (ResponseIsValid Response b).fst = false) :
    (LoginResponse s Response b).snd = (ResponseIsValid Response b).snd := by
  unfold LoginResponse
  simp [h]

theorem loginResponse_valid_fst (s : ServiceState) (Response : Option FHttpResponse)
    (b : Bool) (h : (ResponseIsValid Response b).fst = true) :
    (LoginResponse s Response b).fst =
      SetAuthorizationHash s (GetStructFromJsonString_ResponseLogin Response).hash := by
  unfold LoginResponse
  simp [h]

theorem decodeBody_not_mem_validator_log (Response : Option FHttpResponse) (b : Bool) :
    Effect.decodeBody ∉ (ResponseIsValid Response b).snd := by
  unfold ResponseIsValid
  cases Response with
  | none => cases b <;> simp
  | some r =>
    cases b
    · simp
    · by_cases hok : EHttpResponseCodes.IsOk r.responseCode <;> simp [hok]

theorem runCompletions_all_invalid (cs : List (Option FHttpResponse × Bool)) :
    ∀ s : ServiceState, (∀ c ∈ cs, (ResponseIsValid c.1 c.2).fst = false) →
      runCompletions s cs = s := by
  induction cs with
  | nil => intro s _; rfl
  | cons c rest ih =>
    intro s h
    have hc : (ResponseIsValid c.1 c.2).fst = false := h c (List.mem_cons_self c rest)
    have hrest : ∀ x ∈ rest, (ResponseIsValid x.1 x.2).fst = false :=
      fun x hx => h x (List.mem_cons_of_mem c hx)
    calc runCompletions s (c :: rest)
        = runCompletions (LoginResponse s c.1 c.2).fst rest := rfl
      _ = runCompletions s rest := by rw [loginResponse_invalid_fst s c.1 c.2 hc]
      _ = s := ih s hrest

theorem responseIsValid_some_true (resp : FHttpResponse) :
    ResponseIsValid (some resp) true =
      if 200 ≤ resp.responseCode ∧ resp.responseCode ≤ 299 then (true, [])
      else (false, [Effect.logErrorCode resp.responseCode]) := by
  unfold ResponseIsValid EHttpResponseCodes.IsOk
  by_cases h : 200 ≤ resp.responseCode ∧ resp.responseCode ≤ 299
  · simp [h, h.1, h.2]
  · rw [not_and_or] at h
    rcases h with h1 | h2
    · simp [h1, not_and_or.mpr (Or.inl h1)]
    · simp [h2, not_and_or.mpr (Or.inr h2)]

/-! Concrete responses used by the witness theorems. -/

/-- A 200 response carrying the full login body of the spec's end-to-end
scenario. -/
def respOkFull : FHttpResponse :=
  { responseCode := 200,
    content := Json.obj [("id", Json.num 1), ("name", Json.str "Batman"),
                         ("hash", Json.str "abcd-1234")] }

/-- A 500 response (invalid outcome). -/
def respServerError : FHttpResponse :=
  { responseCode := 500, content := Json.null }

/-- A 200 response whose body lacks the "hash" field. -/
def respOkNoHash : FHttpResponse :=
  { responseCode := 200,
    content := Json.obj [("id", Json.num 1), ("name", Json.str "Batman")] }

/-! Claim theorems. -/

/-- C1: before any successful login completion the process-wide credential
equals the configured placeholder "asdfasdf" (both initially and after any
sequence of completions all classified invalid), and after a login
completion classified valid it equals the `hash` field of the record
decoded from the response body. -/
theorem credential_placeholder_then_decoded_hash :
    (initialState.authorizationHash = "asdfasdf" ∧
      ∀ cs : List (Option FHttpResponse × Bool),
        (∀ c ∈ cs, (ResponseIsValid c.1 c.2).fst = false) →
        (runCompletions initialState cs).authorizationHash = "asdfasdf") ∧
    ∀ (s : ServiceState) (resp : FHttpResponse) (b : Bool),
      (ResponseIsValid (some resp) b).fst = true →
      (LoginResponse s (some resp) b).fst.authorizationHash =
        (jsonObjectStringToUStruct_ResponseLogin resp.content).hash := by
  refine ⟨⟨rfl, ?_⟩, ?_⟩
  · intro cs h
    rw [runCompletions_all_invalid cs initialState h]
    rfl
  · intro s resp b h
    rw [loginResponse_valid_fst s (some resp) b h]
    rfl

/-- Witness for C1: a lone 500 completion leaves the placeholder in place,
and a valid 200 completion with hash "abcd-1234" stores exactly the decoded
hash. -/
theorem credential_placeholder_then_decoded_hash_witness :
    (runCompletions initialState [(some respServerError, true)]).authorizationHash
        = "asdfasdf" ∧
    ((ResponseIsValid (some respOkFull) true).fst = true ∧
      (LoginResponse initialState (some respOkFull) true).fst.authorizationHash =
        (jsonObjectStringToUStruct_ResponseLogin respOkFull.content).hash) :=
  ⟨credential_placeholder_then_decoded_hash.1.2 [(some respServerError, true)]
      (by decide),
   by decide,
   credential_placeholder_then_decoded_hash.2 initialState respOkFull true (by decide)⟩

/-- C2: for a completed outcome with transport success and a present
response, the validator returns valid iff the status code lies in 200..299
inclusive; for any code outside that range it returns invalid and its log
captures the numeric status code. -/
theorem validator_ok_range_and_diagnostic :
    ∀ resp : FHttpResponse,
      ((ResponseIsValid (some resp) true).fst = true ↔
        (200 ≤ resp.responseCode ∧ resp.responseCode ≤ 299)) ∧
      (¬(200 ≤ resp.responseCode ∧ resp.responseCode ≤ 299) →
        (ResponseIsValid (some resp) true).fst = false ∧
        (ResponseIsValid (some resp) true).snd
          = [Effect.logErrorCode resp.responseCode]) := by
  intro resp
  rw [responseIsValid_some_true resp]
  by_cases h : 200 ≤ resp.responseCode ∧ resp.responseCode ≤ 299
  · simp [h]
  · simp [h]

/-- Witness for C2: status 200 is valid, status 500 is invalid and logged. -/
theorem validator_ok_range_and_diagnostic_witness :
    ((ResponseIsValid (some respOkFull) true).fst = true ↔
      (200 ≤ respOkFull.responseCode ∧ respOkFull.responseCode ≤ 299)) ∧
    (¬(200 ≤ respServerError.responseCode ∧ respServerError.responseCode ≤ 299) ∧
      (ResponseIsValid (some respServerError) true).fst = false ∧
      (ResponseIsValid (some respServerError) true).snd
        = [Effect.logErrorCode respServerError.responseCode]) :=
  ⟨(validator_ok_range_and_diagnostic respOkFull).1,
   by decide,
   (validator_ok_range_and_diagnostic respServerError).2 (by decide)⟩

/-- C3: the validator returns invalid whenever the transport did not
succeed, and whenever no response object is present, regardless of status
code or body. -/
theorem validator_failure_or_absent_invalid :
    ∀ (Response : Option FHttpResponse) (b : Bool),
      (b = false → (ResponseIsValid Response b).fst = false) ∧
      (Response = none → (ResponseIsValid Response b).fst = false) := by
  intro Response b
  constructor
  · rintro rfl
    unfold ResponseIsValid
    simp
  · rintro rfl
    unfold ResponseIsValid
    simp

/-- Witness for C3: transport failure with a 200 response, and a missing
response with transport success, are both invalid. -/
theorem validator_failure_or_absent_invalid_witness :
    (ResponseIsValid (some respOkFull) false).fst = false ∧
    (ResponseIsValid none true).fst = false :=
  ⟨(validator_failure_or_absent_invalid (some respOkFull) false).1 rfl,
   (validator_failure_or_absent_invalid none true).2 rfl⟩

/-- C4: every request built by `GetRequest` or `PostRequest` carries
exactly the four headers User-Agent, Content-Type (application/json),
Accepts (application/json) and Authorization, the last one valued with the
credential stored at build time. -/
theorem buildRequest_headers_exact :
    ∀ (s : ServiceState) (route : String) (body : Json),
      (GetRequest s route).headers =
        [("User-Agent", "X-UnrealEngine-Agent"), ("Content-Type", "application/json"),
         ("Accepts", "application/json"), ("Authorization", s.authorizationHash)] ∧
      (PostRequest s route body).headers =
        [("User-Agent", "X-UnrealEngine-Agent"), ("Content-Type", "application/json"),
         ("Accepts", "application/json"), ("Authorization", s.authorizationHash)] :=
  fun _ _ _ => ⟨rfl, rfl⟩

/-- C5: on a completion classified invalid the login handler returns
immediately — the state (hence the stored credential) is unchanged and the
body decode is never attempted. -/
theorem invalid_completion_no_decode_no_change :
    ∀ (s : ServiceState) (Response : Option FHttpResponse) (b : Bool),
      (ResponseIsValid Response b).fst = false →
      (LoginResponse s Response b).fst = s ∧
      Effect.decodeBody ∉ (LoginResponse s Response b).snd := by
  intro s Response b hinv
  refine ⟨loginResponse_invalid_fst s Response b hinv, ?_⟩
  rw [loginResponse_invalid_snd s Response b hinv]
  exact decodeBody_not_mem_validator_log Response b

/-- Witness for C5: a 500 completion leaves the initial state unchanged and
never decodes the body. -/
theorem invalid_completion_no_decode_no_change_witness :
    (ResponseIsValid (some respServerError) true).fst = false ∧
    ((LoginResponse initialState (some respServerError) true).fst = initialState ∧
      Effect.decodeBody ∉ (LoginResponse initialState (some respServerError) true).snd) :=
  ⟨by decide,
   invalid_completion_no_decode_no_change initialState (some respServerError) true
     (by decide)⟩

/-- C6: encode/decode round-trip — decoding the JSON produced by encoding a
record of either payload shape gives back the same record (every field is
emitted by the encoder, so all fields are present and of matching type). -/
theorem codec_round_trip :
    ∀ (p : FRequest_Login) (q : FResponse_Login),
      jsonObjectStringToUStruct_RequestLogin (uStructToJsonObjectString_RequestLogin p)
          = p ∧
      jsonObjectStringToUStruct_ResponseLogin (uStructToJsonObjectString_ResponseLogin q)
          = q :=
  fun _ _ => ⟨rfl, rfl⟩

/-- C7: decoding a body that misses fields of the target shape silently
leaves those fields at their type's default; in particular the body
`{"id":1,"name":"Batman"}` decodes against the login response shape to
id 1, name "Batman", hash "" with no error. -/
theorem decode_missing_fields_default :
    (∀ j : Json, Json.lookupField j "id" = none →
        (jsonObjectStringToUStruct_ResponseLogin j).id = 0) ∧
    (∀ j : Json, Json.lookupField j "name" = none →
        (jsonObjectStringToUStruct_ResponseLogin j).name = "") ∧
    (∀ j : Json, Json.lookupField j "hash" = none →
        (jsonObjectStringToUStruct_ResponseLogin j).hash = "") ∧
    GetStructFromJsonString_ResponseLogin (some respOkNoHash) =
      { id := 1, name := "Batman", hash := "" } := by
  refine ⟨?_, ?_, ?_, rfl⟩
  · intro j h
    simp [jsonObjectStringToUStruct_ResponseLogin, decodeIntField, h]
  · intro j h
    simp [jsonObjectStringToUStruct_ResponseLogin, decodeStrField, h]
  · intro j h
    simp [jsonObjectStringToUStruct_ResponseLogin, decodeStrField, h]

/-- Witness for C7: the empty JSON object lacks all three fields and
decodes to the fully defaulted record. -/
theorem decode_missing_fields_default_witness :
    Json.lookupField (Json.obj []) "hash" = none ∧
    (jsonObjectStringToUStruct_ResponseLogin (Json.obj [])).hash = "" :=
  ⟨rfl, decode_missing_fields_default.2.2.1 (Json.obj []) rfl⟩

/-- C8: `Login` builds a POST request whose URL is the fixed base URL
concatenated with route "user/login" and whose body is the JSON encoding
of the credentials record. -/
theorem login_posts_credentials_to_route :
    ∀ (s : ServiceState) (creds : FRequest_Login),
      (Login s creds).verb = "POST" ∧
      (Login s creds).url = ApiBaseUrl ++ "user/login" ∧
      (Login s creds).content =
        some (Json.obj [("email", Json.str creds.email),
                        ("password", Json.str creds.password)]) :=
  fun _ _ => ⟨rfl, rfl, rfl⟩

/-- C9: the only request constructors of the builder interface are
`GetRequest` and `PostRequest`, and every request they produce has its
verb set to exactly "GET" respectively "POST" — both verbs lie in the
supported set, so no PUT, DELETE or PATCH request can be produced. -/
theorem builder_verbs_get_or_post :
    ∀ (s : ServiceState) (route : String) (body : Json),
      (GetRequest s route).verb = "GET" ∧
      (PostRequest s route body).verb = "POST" ∧
      (GetRequest s route).verb ∈ ["GET", "POST"] ∧
      (PostRequest s route body).verb ∈ ["GET", "POST"] := by
  intro s route body
  refine ⟨rfl, rfl, ?_, ?_⟩
  · show "GET" ∈ ["GET", "POST"]
    simp
  · show "POST" ∈ ["GET", "POST"]
    simp

/-- C10: a completion classified valid whose body has no "hash" field of
string type (missing or type-mismatched) still overwrites the stored
credential with the decoded default, the empty string. -/
theorem valid_no_hash_erases_credential :
    ∀ (s : ServiceState) (resp : FHttpResponse) (b : Bool),
      (ResponseIsValid (some resp) b).fst = true →
      (∀ v : String, Json.lookupField resp.content "hash" ≠ some (Json.str v)) →
      (LoginResponse s (some resp) b).fst.authorizationHash = "" := by
  intro s resp b hv hno
  rw [loginResponse_valid_fst s (some resp) b hv]
  show decodeStrField resp.content "hash" = ""
  unfold decodeStrField
  cases hl : Json.lookupField resp.content "hash" with
  | none => rfl
  | some v =>
    cases v with
    | str t => exact absurd hl (hno t)
    | null => rfl
    | boolean c => rfl
    | num n => rfl
    | arr a => rfl
    | obj o => rfl

/-- Witness for C10: a valid 200 completion whose body is
`{"id":1,"name":"Batman"}` replaces a previously stored credential
"abcd-1234" with the empty string. -/
theorem valid_no_hash_erases_credential_witness :
    (ResponseIsValid (some respOkNoHash) true).fst = true ∧
    (∀ v : String, Json.lookupField respOkNoHash.content "hash" ≠ some (Json.str v)) ∧
    (LoginResponse { authorizationHash := "abcd-1234" }
        (some respOkNoHash) true).fst.authorizationHash = "" := by
  have hno : ∀ v : String, Json.lookupField respOkNoHash.content "hash"
      ≠ some (Json.str v) := by
    intro v h
    exact Option.noConfusion h
  exact ⟨by decide, hno,
    valid_no_hash_erases_credential { authorizationHash := "abcd-1234" }
      respOkNoHash true (by decide) hno⟩
